import Mathlib

/-!
Shallow embedding of the ops-swarm incident-response agent.

Source files embedded:
  * src/src/state.py      — IncidentContext, AgentState
  * src/src/graph.py      — diagnose_node, plan_node, execute_node, build_graph
  * src/src/mcp_client.py — execute_tool
  * src/app.py            — manual operator console guardrail check

External collaborators are modelled as function parameters: the reasoning
oracle (the Groq LLM) as `llm : String → String` (prompt to returned text)
and the MCP tool gateway as `Gateway`, mapping a tool name and argument map
to either a list of content-block texts or a raised exception (the
`CallToolResult.error` case models any exception escaping the connection,
handshake or call inside `execute_tool`).  Each embedded node additionally
returns a `CallTrace` recording the oracle prompts sent and the gateway
tool calls actually performed, so that claims about side effects (for
example that blocked execution performs no gateway call) are statable.

Python string primitives used by the code are embedded over `List Char`:
`str.lower` as an ASCII lowercase map, substring membership (`in`) as
`occurs`, `str.strip()` as `pyStrip`, and `s.split(pat)[-1]` as
`pySplitLast` (for the border-free pattern "restart_resource" the
non-overlapping left-to-right scan of Python split finds every occurrence,
so the last piece is the text after the last occurrence).
-/

namespace OpsSwarm

/-- Models the Python substring test `pat in s`: true iff `pat` occurs as a
contiguous sublist of `s`. -/
def occurs (pat : List Char) : List Char → Bool
  | [] => pat.isPrefixOf []
  | c :: t => pat.isPrefixOf (c :: t) || occurs pat t

/-- Substring containment on strings, `strContains hay pat` models
`pat in hay` in Python. -/
def strContains (hay pat : String) : Bool :=
  occurs pat.toList hay.toList

/-- Models Python `str.lower()` on the ASCII inputs used by the code. -/
def lowerStr (s : String) : String :=
  ⟨s.toList.map Char.toLower⟩

/-- Drops leading whitespace characters. -/
def dropLeadingWs : List Char → List Char
  | [] => []
  | c :: t => if c.isWhitespace then dropLeadingWs t else c :: t

/-- Models Python `str.strip()`: removes leading and trailing whitespace. -/
def pyStrip (s : String) : String :=
  ⟨(dropLeadingWs (dropLeadingWs s.toList).reverse).reverse⟩

/-- The suffix of `s` following the last occurrence of `pat`
(`[]` when `pat` does not occur). -/
def afterLast (pat : List Char) : List Char → List Char
  | [] => []
  | c :: t =>
    if pat.isPrefixOf (c :: t) && !(occurs pat t) then (c :: t).drop pat.length
    else afterLast pat t

/-- Models Python `s.split(pat)[-1]` for a border-free pattern: the text
after the last occurrence of `pat`, or all of `s` when `pat` does not
occur. -/
def pySplitLast (pat s : String) : String :=
  if occurs pat.toList s.toList then ⟨afterLast pat.toList s.toList⟩ else s

/-- Models Python f-string rendering of an `Optional[str]` field
(`None` prints as "None"). -/
def optStr : Option String → String
  | none => "None"
  | some s => s

/-- src/src/state.py `IncidentContext`: the structured facts of the
incident.  `action_status` is a free string in the source
(PENDING, APPROVED, EXECUTED, REJECTED are the intended values). -/
structure IncidentContext where
  incident_id : String
  logs : String
  severity : String
  diagnosis : Option String
  proposed_action : Option String
  action_status : String
deriving Repr, DecidableEq

/-- src/src/state.py `AgentState`: the working memory of the graph. -/
structure AgentState where
  messages : List String
  context : IncidentContext
  require_approval : Bool
deriving Repr, DecidableEq

/-- Outcome of one MCP `session.call_tool` round trip as observed inside
`execute_tool`: either a list of content-block texts, or an exception
raised anywhere in the connection, handshake or call. -/
inductive CallToolResult where
  | ok (content : List String)
  | error (e : String)
deriving Repr, DecidableEq

/-- The tool gateway collaborator: tool name and argument map to outcome. -/
def Gateway := String → List (String × String) → CallToolResult

/-- src/src/mcp_client.py `execute_tool`: returns the first content-block
text on success, a fixed success message when no content is returned, and
on any exception a plain text result carrying the MCP Client Error marker
(the function never raises). -/
def execute_tool (gateway : Gateway) (tool_name : String)
    (arguments : List (String × String)) : String :=
  match gateway tool_name arguments with
  | .ok (t :: _) => t
  | .ok [] => "Success (No output returned)."
  | .error e =>
      "❌ MCP Client Error: Failed to execute \x27" ++ tool_name ++
        "\x27. Details: " ++ e

/-- Record of the external calls one node (or one engine run) performed:
prompts sent to the reasoning oracle and tool calls sent to the gateway. -/
structure CallTrace where
  oracleCalls : List String
  gatewayCalls : List (String × List (String × String))
deriving Repr, DecidableEq

/-- src/src/graph.py line 39: the diagnosis prompt f-string. -/
def diagnosePrompt (logs : String) : String :=
  "\n    You are a Senior Site Reliability Engineer (SRE).\n    Analyze the following server logs and identify the specific service failure and error type.\n    \n    LOGS:\n    " ++
    logs ++
    "\n    \n    Output ONLY a concise diagnosis (e.g., \x27Database Shard 04 Connection Refused\x27).\n    Do not propose fixes yet.\n    "

/-- src/src/graph.py line 71: the planning prompt f-string. -/
def planPrompt (diagnosis tool_result : String) : String :=
  "\n    Diagnosis: " ++ diagnosis ++ "\n    Current System Status: " ++
    tool_result ++
    "\n    \n    Propose a specific remediation action using available tools.\n    Available Tools: [\x27restart_resource\x27, \x27fetch_service_logs\x27]\n    \n    Output ONLY the recommended action in this format:\n    \"Action: <ToolName> <Args>\"\n    Example: \"Action: restart_resource DB_SHARD_04\"\n    "

/-- src/src/graph.py `diagnose_node`: sends the logs to the oracle with the
diagnosis prompt, writes the returned text into `diagnosis`, appends one
log entry.  There is no check of `action_status` anywhere in this node. -/
def diagnose_node (llm : String → String) (state : AgentState) :
    AgentState × CallTrace :=
  let prompt := diagnosePrompt state.context.logs
  let response := llm prompt
  ({ state with
      context := { state.context with diagnosis := some response },
      messages := state.messages ++ ["🔍 **Diagnosis:** " ++ response] },
   { oracleCalls := [prompt], gatewayCalls := [] })

/-- src/src/graph.py `plan_node`: calls the gateway tool `check_db_status`,
sends the diagnosis plus tool output to the oracle, stores the stripped
response as `proposed_action`, appends two log entries, sets
`require_approval := true` and unconditionally sets
`action_status := "PENDING"`.  There is no check of `action_status`
anywhere in this node. -/
def plan_node (llm : String → String) (gateway : Gateway)
    (state : AgentState) : AgentState × CallTrace :=
  let tool_result := execute_tool gateway "check_db_status"
    [("shard_id", "DB_SHARD_04")]
  let prompt := planPrompt (optStr state.context.diagnosis) tool_result
  let proposal := pyStrip (llm prompt)
  ({ state with
      context := { state.context with
        proposed_action := some proposal,
        action_status := "PENDING" },
      messages := state.messages ++
        ["🛠️ **Proposed Plan:** " ++ proposal,
         "📊 **Live Status Check:** " ++ tool_result],
      require_approval := true },
   { oracleCalls := [prompt],
     gatewayCalls := [("check_db_status", [("shard_id", "DB_SHARD_04")])] })

/-- src/src/graph.py line 107: the blocked-execution notice. -/
def blockedMsg : String :=
  "⛔ **Execution Blocked:** Waiting for Human Approval."

/-- src/src/graph.py line 123: the unknown-action notice. -/
def unknownActionMsg : String := "⚠️ **Error:** Unknown action type."

/-- src/src/graph.py line 126 when `proposed_action` is `None`: the
`in` test on `None` raises `TypeError`, caught by the except branch. -/
def noneTypeErrorMsg : String :=
  "❌ **Execution Failed:** argument of type \x27NoneType\x27 is not iterable"

/-- src/src/graph.py `execute_node`: if `action_status` is anything other
than "APPROVED", append the blocked notice and return (no gateway call).
Otherwise, if `proposed_action` contains the substring "restart_resource",
call the gateway with tool `restart_resource` and the stripped text after
that substring as `resource_id`, append a success entry built from the
returned text, and set `action_status := "EXECUTED"`; any other proposal
gets the unknown-action notice.  A `None` proposal raises `TypeError` at
the `in` test, caught by the except branch as an execution-failed entry. -/
def execute_node (gateway : Gateway) (state : AgentState) :
    AgentState × CallTrace :=
  if state.context.action_status ≠ "APPROVED" then
    ({ state with messages := state.messages ++ [blockedMsg] }, ⟨[], []⟩)
  else
    match state.context.proposed_action with
    | none =>
        ({ state with messages := state.messages ++ [noneTypeErrorMsg] },
         ⟨[], []⟩)
    | some proposal =>
        if strContains proposal "restart_resource" then
          let resource_id := pyStrip (pySplitLast "restart_resource" proposal)
          let result := execute_tool gateway "restart_resource"
            [("resource_id", resource_id)]
          ({ state with
              messages := state.messages ++
                ["✅ **Execution Success:** " ++ result],
              context := { state.context with action_status := "EXECUTED" } },
           ⟨[], [("restart_resource", [("resource_id", resource_id)])]⟩)
        else
          ({ state with messages := state.messages ++ [unknownActionMsg] },
           ⟨[], []⟩)

/-- Concatenation of call traces in execution order. -/
def mergeTrace (a b : CallTrace) : CallTrace :=
  ⟨a.oracleCalls ++ b.oracleCalls, a.gatewayCalls ++ b.gatewayCalls⟩

/-- src/src/graph.py `build_graph` compiled and invoked once: the linear
topology diagnose → plan → execute → END, threading the state through the
three nodes and collecting the external calls performed. -/
def runGraph (llm : String → String) (gateway : Gateway)
    (state : AgentState) : AgentState × CallTrace :=
  let r1 := diagnose_node llm state
  let r2 := plan_node llm gateway r1.1
  let r3 := execute_node gateway r2.1
  (r3.1, mergeTrace r1.2 (mergeTrace r2.2 r3.2))

/-- src/app.py line 201: the denylist of the manual-console guardrail. -/
def dangerous_keywords : List String :=
  ["delete", "destroy", "drop", "rm -rf", "wipe"]

/-- src/app.py line 203: the guardrail classification — any denylisted
keyword occurring in the lowercased operator input marks it dangerous. -/
def isDangerous (user_override : String) : Bool :=
  dangerous_keywords.any (fun word => strContains (lowerStr user_override) word)

/-- src/app.py line 204: the fixed rejection message. -/
def securityAlertMsg : String :=
  "⛔ **SECURITY ALERT:** I am blocked from executing destructive commands by the OpsSwarm Safety Policy."

/-- src/app.py line 196: the echoed operator message. -/
def operatorMsg (user_override : String) : String :=
  "👤 **Operator:** " ++ user_override

/-- src/app.py line 207: the acknowledgment for an allowed command. -/
def ackMsg (user_override : String) : String :=
  "🤖 **Agent:** Acknowledged. Processing manual command: \x27" ++
    user_override ++ "\x27"

/-- src/app.py lines 194..210: handling one manual operator console input.
The operator message is always echoed; a dangerous input gets the fixed
security alert, an allowed one gets the acknowledgment.  Neither branch
touches the incident context or performs any oracle or gateway call. -/
def handle_user_override (user_override : String) (state : AgentState) :
    AgentState × CallTrace :=
  let s1 := { state with
    messages := state.messages ++ [operatorMsg user_override] }
  if isDangerous user_override then
    ({ s1 with messages := s1.messages ++ [securityAlertMsg] }, ⟨[], []⟩)
  else
    ({ s1 with messages := s1.messages ++ [ackMsg user_override] }, ⟨[], []⟩)

/-! ### Concrete fixtures used by witnesses and counterexamples -/

/-- A freshly created incident record, as app.py builds it at intake
(diagnosis and proposed_action unset, status PENDING). -/
def pendingCtx : IncidentContext :=
  ⟨"INC-2024-001", "[ERROR] Connection Refused: DB_SHARD_04", "CRITICAL",
   none, none, "PENDING"⟩

/-- Fresh workflow state for `pendingCtx`, as app.py initial_inputs. -/
def pendingState : AgentState := ⟨[], pendingCtx, false⟩

/-- A gateway double whose every call succeeds with one content block. -/
def okGateway : Gateway := fun _ _ => .ok ["STATUS: ONLINE. Load: Normal."]

/-- A gateway double whose every call raises a connectivity error. -/
def failGateway : Gateway := fun _ _ => .error "Connection refused"

/-- A record after diagnosis and planning whose proposal the human has
approved (app.py sets action_status to APPROVED on the Approve button). -/
def approvedCtx : IncidentContext :=
  ⟨"INC-2024-001", "[ERROR] Connection Refused: DB_SHARD_04", "CRITICAL",
   some "Database Shard 04 Connection Refused",
   some "Action: restart_resource DB_SHARD_04", "APPROVED"⟩

/-- Workflow state for `approvedCtx`. -/
def approvedState : AgentState := ⟨[], approvedCtx, true⟩

/-- An oracle double that always answers with a well-formed action. -/
def constLLM : String → String := fun _ => "Action: restart_resource DB_SHARD_04"

/-- An oracle double that always answers with fresh, different text. -/
def newLLM : String → String := fun _ => "NEW ORACLE OUTPUT"

/-- An oracle double whose replies are non-empty but all whitespace. -/
def wsLLM : String → String := fun _ => " "

/-- An approved record whose proposal names the allow-list tool
`fetch_service_logs` rather than `restart_resource`. -/
def fetchCtx : IncidentContext :=
  ⟨"INC-2024-001", "[ERROR] Connection Refused: DB_SHARD_04", "CRITICAL",
   some "Database Shard 04 Connection Refused",
   some "Action: fetch_service_logs payment_gateway", "APPROVED"⟩

/-- Workflow state for `fetchCtx`. -/
def fetchState : AgentState := ⟨[], fetchCtx, true⟩

/-- A pending state whose log already ends with the blocked notice,
as left behind by a previous blocked EXECUTE invocation. -/
def blockedOnceState : AgentState := ⟨[blockedMsg], pendingCtx, false⟩

/-! ### Helper lemmas -/

/-- `occurs` decides contiguous-sublist containment. -/
theorem occurs_correct (pat s : List Char) :
    occurs pat s = true ↔ pat <:+: s := by
  induction s with
  | nil => simp [occurs]
  | cons c t ih => simp [occurs, ih, List.infix_cons_iff]

/-- The character list of an appended string is the appended lists. -/
theorem string_data_append (a b : String) : (a ++ b).data = a.data ++ b.data := by
  cases a; cases b; rfl

/-- Stripping the empty string yields the empty string. -/
theorem pyStrip_empty : pyStrip "" = "" := rfl

/-- `runGraph` in closed form: diagnose always writes the oracle reply
into `diagnosis`, plan always calls `check_db_status`, stores the
stripped oracle reply and resets the status to PENDING, and execute is
therefore always blocked within a single run. -/
theorem runGraph_eq (llm : String → String) (gateway : Gateway)
    (s : AgentState) :
    runGraph llm gateway s =
      ({ messages := s.messages ++
          ["🔍 **Diagnosis:** " ++ llm (diagnosePrompt s.context.logs),
           "🛠️ **Proposed Plan:** " ++
             pyStrip (llm (planPrompt (llm (diagnosePrompt s.context.logs))
               (execute_tool gateway "check_db_status"
                 [("shard_id", "DB_SHARD_04")]))),
           "📊 **Live Status Check:** " ++
             execute_tool gateway "check_db_status"
               [("shard_id", "DB_SHARD_04")],
           blockedMsg],
         context := { s.context with
           diagnosis := some (llm (diagnosePrompt s.context.logs)),
           proposed_action := some
             (pyStrip (llm (planPrompt (llm (diagnosePrompt s.context.logs))
               (execute_tool gateway "check_db_status"
                 [("shard_id", "DB_SHARD_04")])))),
           action_status := "PENDING" },
         require_approval := true },
       ⟨[diagnosePrompt s.context.logs,
         planPrompt (llm (diagnosePrompt s.context.logs))
           (execute_tool gateway "check_db_status"
             [("shard_id", "DB_SHARD_04")])],
        [("check_db_status", [("shard_id", "DB_SHARD_04")])]⟩) := by
  simp [runGraph, diagnose_node, plan_node, execute_node, mergeTrace, optStr]

/-! ### Claim theorems -/

/-- Claim C1: for every workflow state, EXECUTE performs no Tool Gateway
call unless `action_status` is exactly "APPROVED" immediately before the
call; any other value (PENDING, REJECTED, or any unexpected string) makes
EXECUTE append the blocked notice and return the state otherwise
unchanged, with an empty call trace — an ambiguous value is never treated
as approval. -/
theorem execute_no_gateway_unless_approved (gateway : Gateway)
    (s : AgentState) (h : s.context.action_status ≠ "APPROVED") :
    execute_node gateway s =
      ({ s with messages := s.messages ++ [blockedMsg] }, ⟨[], []⟩) := by
  simp [execute_node, h]

/-- Witness for C1: a PENDING record is blocked with no gateway call. -/
theorem execute_no_gateway_unless_approved_witness :
    pendingState.context.action_status ≠ "APPROVED" ∧
      execute_node okGateway pendingState =
        ({ pendingState with
            messages := pendingState.messages ++ [blockedMsg] }, ⟨[], []⟩) :=
  ⟨by decide,
   execute_no_gateway_unless_approved okGateway pendingState (by decide)⟩

/-- Claim C2 (code bug): running the engine on an APPROVED record — which
is exactly what app.py does after the Approve button — moves
`action_status` from "APPROVED" back to "PENDING", because `plan_node`
unconditionally resets the status; the full run therefore also ends at
"PENDING", never "EXECUTED". -/
theorem plan_resets_approved_to_pending :
    approvedState.context.action_status = "APPROVED" ∧
      (plan_node constLLM okGateway approvedState).1.context.action_status =
        "PENDING" ∧
      (runGraph constLLM okGateway approvedState).1.context.action_status =
        "PENDING" := by
  refine ⟨rfl, rfl, ?_⟩
  decide

/-- Claim C3 (code bug): on a record whose `action_status` is "APPROVED",
`diagnose_node` still overwrites `diagnosis` with the fresh oracle reply
and still consults the oracle, and `plan_node` still overwrites
`proposed_action` and still calls the gateway — neither stage skips. -/
theorem diagnose_plan_overwrite_despite_approved :
    approvedState.context.action_status = "APPROVED" ∧
      (diagnose_node newLLM approvedState).1.context.diagnosis ≠
        approvedState.context.diagnosis ∧
      (plan_node newLLM okGateway approvedState).1.context.proposed_action ≠
        approvedState.context.proposed_action ∧
      (diagnose_node newLLM approvedState).2.oracleCalls ≠ [] ∧
      (plan_node newLLM okGateway approvedState).2.gatewayCalls ≠ [] := by
  refine ⟨rfl, by decide, by decide, ?_, ?_⟩ <;> decide

/-- Claim C4 (code bug): when the gateway raises a connectivity error
during EXECUTE of an APPROVED record, `execute_tool` swallows the
exception into a text result, so `execute_node` takes the success path:
it appends a success entry that merely quotes the MCP client error text
and sets `action_status` to "EXECUTED" — not APPROVED, and with no
failure entry. -/
theorem gateway_failure_marked_executed :
    approvedState.context.action_status = "APPROVED" ∧
      failGateway "restart_resource" [("resource_id", "DB_SHARD_04")] =
        .error "Connection refused" ∧
      (execute_node failGateway approvedState).1.context.action_status =
        "EXECUTED" ∧
      (execute_node failGateway approvedState).1.messages =
        ["✅ **Execution Success:** ❌ MCP Client Error: Failed to execute \x27restart_resource\x27. Details: Connection refused"] := by
  refine ⟨rfl, rfl, ?_, ?_⟩ <;> decide

/-- Claim C5: every operator input containing a denylisted token as a
case-insensitive substring is classified dangerous and answered with the
fixed rejection message, with no gateway call; the benign string
"check status" is classified allowed. -/
theorem guard_blocks_denylisted (text : String) (s : AgentState)
    (h : ∃ w ∈ dangerous_keywords, w.toList <:+: (lowerStr text).toList) :
    isDangerous text = true ∧
      (handle_user_override text s).1.messages =
        s.messages ++ [operatorMsg text, securityAlertMsg] ∧
      (handle_user_override text s).2.gatewayCalls = [] ∧
      isDangerous "check status" = false := by
  obtain ⟨w, hw, hinf⟩ := h
  have hd : isDangerous text = true := by
    unfold isDangerous strContains
    exact List.any_eq_true.mpr ⟨w, hw, (occurs_correct _ _).mpr hinf⟩
  refine ⟨hd, ?_, ?_, by decide⟩ <;> simp [handle_user_override, hd]

/-- Witness for C5: the Scenario D input "please drop the database". -/
theorem guard_blocks_denylisted_witness :
    (∃ w ∈ dangerous_keywords,
        w.toList <:+: (lowerStr "please drop the database").toList) ∧
      (isDangerous "please drop the database" = true ∧
        (handle_user_override "please drop the database" pendingState).1.messages =
          pendingState.messages ++
            [operatorMsg "please drop the database", securityAlertMsg] ∧
        (handle_user_override "please drop the database"
            pendingState).2.gatewayCalls = [] ∧
        isDangerous "check status" = false) :=
  ⟨by decide, guard_blocks_denylisted "please drop the database" pendingState
    (by decide)⟩

/-- Claim C6 counterexample: on a PENDING record whose log already ends
with the blocked notice, EXECUTE appends the notice again — the entry is
not deduplicated, so repeated no-op invocations do grow the log. -/
theorem blocked_entry_not_deduplicated :
    blockedOnceState.messages.getLast? = some blockedMsg ∧
      blockedOnceState.context.action_status = "PENDING" ∧
      (execute_node okGateway blockedOnceState).1.messages =
        [blockedMsg, blockedMsg] := by
  refine ⟨rfl, rfl, ?_⟩
  decide

/-- Claim C6 as amended: when EXECUTE runs on a record whose status is
anything other than "APPROVED", it appends exactly one blocked entry and
returns the state otherwise unchanged with no gateway call; the entry is
appended unconditionally, even when the preceding log entry is identical,
so each repeated no-op invocation grows the log by one. -/
theorem execute_blocked_appends_unconditionally (gateway : Gateway)
    (s : AgentState) (h : s.context.action_status ≠ "APPROVED") :
    (execute_node gateway s).1.messages = s.messages ++ [blockedMsg] ∧
      (execute_node gateway s).1.context = s.context ∧
      (execute_node gateway s).1.require_approval = s.require_approval ∧
      (execute_node gateway s).2.gatewayCalls = [] ∧
      (execute_node gateway s).1.messages.length = s.messages.length + 1 := by
  simp [execute_node, h]

/-- Witness for amended C6: a blocked entry is appended even though the
preceding log entry is already the blocked notice. -/
theorem execute_blocked_appends_unconditionally_witness :
    blockedOnceState.context.action_status ≠ "APPROVED" ∧
      ((execute_node okGateway blockedOnceState).1.messages =
          blockedOnceState.messages ++ [blockedMsg] ∧
        (execute_node okGateway blockedOnceState).1.context =
          blockedOnceState.context ∧
        (execute_node okGateway blockedOnceState).1.require_approval =
          blockedOnceState.require_approval ∧
        (execute_node okGateway blockedOnceState).2.gatewayCalls = [] ∧
        (execute_node okGateway blockedOnceState).1.messages.length =
          blockedOnceState.messages.length + 1) :=
  ⟨by decide,
   execute_blocked_appends_unconditionally okGateway blockedOnceState
     (by decide)⟩

/-- Claim C7 counterexample: on an APPROVED record whose proposal names
the allow-list tool `fetch_service_logs`, EXECUTE performs no gateway
call and appends the unknown-action entry, refuting the claim that every
recognized allow-list tool is dispatched to the gateway. -/
theorem fetch_service_logs_not_dispatched :
    fetchState.context.action_status = "APPROVED" ∧
      fetchState.context.proposed_action =
        some "Action: fetch_service_logs payment_gateway" ∧
      (execute_node okGateway fetchState).2.gatewayCalls = [] ∧
      (execute_node okGateway fetchState).1.messages = [unknownActionMsg] := by
  refine ⟨rfl, rfl, ?_, ?_⟩ <;> decide

/-- Claim C7 as amended: when EXECUTE runs on an APPROVED record with a
proposal, it tests only whether the proposal contains the substring
"restart_resource".  If it does not — including proposals naming the
read-only status-check and log-fetch tools — EXECUTE appends the
unknown-action entry, makes no gateway call and leaves the state
otherwise unchanged (so the status stays APPROVED).  If it does, EXECUTE
invokes the gateway exactly once with tool `restart_resource` and the
stripped text after the last occurrence of the substring as
`resource_id`, appends a success entry and sets the status to
"EXECUTED". -/
theorem execute_dispatches_restart_only (gateway : Gateway)
    (s : AgentState) (p : String)
    (hA : s.context.action_status = "APPROVED")
    (hp : s.context.proposed_action = some p) :
    (strContains p "restart_resource" = false →
        execute_node gateway s =
          ({ s with messages := s.messages ++ [unknownActionMsg] },
           ⟨[], []⟩)) ∧
      (strContains p "restart_resource" = true →
        (execute_node gateway s).2.gatewayCalls =
            [("restart_resource",
              [("resource_id", pyStrip (pySplitLast "restart_resource" p))])] ∧
          (execute_node gateway s).1.messages =
            s.messages ++ ["✅ **Execution Success:** " ++
              execute_tool gateway "restart_resource"
                [("resource_id", pyStrip (pySplitLast "restart_resource" p))]] ∧
          (execute_node gateway s).1.context.action_status = "EXECUTED") := by
  constructor
  · intro hf
    simp [execute_node, hA, hp, hf]
  · intro ht
    simp [execute_node, hA, hp, ht]

/-- Witness for amended C7: the `fetch_service_logs` proposal lands in
the unknown-action branch. -/
theorem execute_dispatches_restart_only_witness :
    execute_node okGateway fetchState =
      ({ fetchState with
          messages := fetchState.messages ++ [unknownActionMsg] },
       ⟨[], []⟩) :=
  (execute_dispatches_restart_only okGateway fetchState
      "Action: fetch_service_logs payment_gateway" (by decide) rfl).1
    (by decide)

/-- Claim C8 counterexample: an oracle whose every reply is the non-empty
string " " (all whitespace) leaves a fresh run with
`proposed_action = some ""` — empty — because the plan stage stores the
stripped reply; the oracle replies recorded in the trace were all
non-empty. -/
theorem whitespace_oracle_gives_empty_action :
    pendingState.context.action_status = "PENDING" ∧
      pendingState.context.diagnosis = none ∧
      pendingState.context.proposed_action = none ∧
      (runGraph wsLLM okGateway pendingState).2.oracleCalls.all
        (fun p => wsLLM p != "") = true ∧
      (runGraph wsLLM okGateway pendingState).1.context.proposed_action =
        some "" := by
  refine ⟨rfl, rfl, rfl, ?_, ?_⟩ <;> decide

/-- Claim C8 as amended: for every fresh record (status PENDING,
diagnosis and proposed_action unset), one full engine run with an oracle
whose replies are non-empty after whitespace stripping yields a non-empty
diagnosis, a non-empty proposed_action, status still PENDING with
`require_approval` set, and a log at least two entries longer. -/
theorem fresh_run_produces_nonempty_plan (llm : String → String)
    (gateway : Gateway) (s : AgentState)
    (_hS : s.context.action_status = "PENDING")
    (_hd : s.context.diagnosis = none)
    (_hp : s.context.proposed_action = none)
    (hne : ∀ p, pyStrip (llm p) ≠ "") :
    ∃ d a,
      (runGraph llm gateway s).1.context.diagnosis = some d ∧ d ≠ "" ∧
      (runGraph llm gateway s).1.context.proposed_action = some a ∧ a ≠ "" ∧
      (runGraph llm gateway s).1.context.action_status = "PENDING" ∧
      (runGraph llm gateway s).1.require_approval = true ∧
      s.messages.length + 2 ≤ (runGraph llm gateway s).1.messages.length := by
  have h1 : llm (diagnosePrompt s.context.logs) ≠ "" := by
    intro h0
    exact hne (diagnosePrompt s.context.logs) (by rw [h0, pyStrip_empty])
  refine ⟨llm (diagnosePrompt s.context.logs),
    pyStrip (llm (planPrompt (llm (diagnosePrompt s.context.logs))
      (execute_tool gateway "check_db_status" [("shard_id", "DB_SHARD_04")]))),
    ?_, h1, ?_, hne _, ?_, ?_, ?_⟩ <;> simp [runGraph_eq]

/-- Witness for amended C8: Scenario A on the fresh record with oracle
and gateway doubles. -/
theorem fresh_run_produces_nonempty_plan_witness :
    ∃ d a,
      (runGraph constLLM okGateway pendingState).1.context.diagnosis =
        some d ∧ d ≠ "" ∧
      (runGraph constLLM okGateway pendingState).1.context.proposed_action =
        some a ∧ a ≠ "" ∧
      (runGraph constLLM okGateway pendingState).1.context.action_status =
        "PENDING" ∧
      (runGraph constLLM okGateway pendingState).1.require_approval = true ∧
      pendingState.messages.length + 2 ≤
        (runGraph constLLM okGateway pendingState).1.messages.length :=
  fresh_run_produces_nonempty_plan constLLM okGateway pendingState rfl rfl rfl
    (fun _ =>
      (by decide : pyStrip "Action: restart_resource DB_SHARD_04" ≠ ""))

/-- Claim C9: `execute_tool` never raises — every connection, handshake
or remote-execution failure is caught and returned as an ordinary string
prefixed with the MCP Client Error marker, so at the call site a failure
result has the same type as a success result. -/
theorem execute_tool_error_is_text (gateway : Gateway) (tool_name : String)
    (args : List (String × String)) (e : String)
    (herr : gateway tool_name args = .error e) :
    execute_tool gateway tool_name args =
      "❌ MCP Client Error: Failed to execute \x27" ++ tool_name ++
        "\x27. Details: " ++ e ∧
      ("❌ MCP Client Error").toList <+:
        (execute_tool gateway tool_name args).toList := by
  have h1 : execute_tool gateway tool_name args =
      "❌ MCP Client Error: Failed to execute \x27" ++ tool_name ++
        "\x27. Details: " ++ e := by
    unfold execute_tool
    rw [herr]
  refine ⟨h1, ?_⟩
  have h3 : (execute_tool gateway tool_name args).toList =
      ("❌ MCP Client Error: Failed to execute \x27").toList ++
        (tool_name.toList ++ (("\x27. Details: ").toList ++ e.toList)) := by
    rw [h1]
    simp [String.toList, string_data_append]
  rw [h3]
  exact List.IsPrefix.trans (by decide) (List.prefix_append _ _)

/-- Witness for C9: a connectivity error on the restart tool comes back
as the marker-prefixed text. -/
theorem execute_tool_error_is_text_witness :
    failGateway "restart_resource" [("resource_id", "DB_SHARD_04")] =
      .error "Connection refused" ∧
      (execute_tool failGateway "restart_resource"
          [("resource_id", "DB_SHARD_04")] =
        "❌ MCP Client Error: Failed to execute \x27restart_resource\x27. Details: Connection refused" ∧
        ("❌ MCP Client Error").toList <+:
          (execute_tool failGateway "restart_resource"
            [("resource_id", "DB_SHARD_04")]).toList) :=
  ⟨rfl, execute_tool_error_is_text failGateway "restart_resource"
    [("resource_id", "DB_SHARD_04")] "Connection refused" rfl⟩

/-- Claim C10: for every manual operator console input, blocked or
allowed, processing only appends to the messages log — the incident
context (including `action_status`, `diagnosis`, `proposed_action`) and
the `require_approval` flag are untouched, the call trace is empty (no
gateway and no oracle call), and an allowed command receives only the
acknowledgment message. -/
theorem operator_console_frame (user_override : String) (s : AgentState) :
    (handle_user_override user_override s).1.context = s.context ∧
      (handle_user_override user_override s).1.require_approval =
        s.require_approval ∧
      (handle_user_override user_override s).2 = ⟨[], []⟩ ∧
      (handle_user_override user_override s).1.messages =
        s.messages ++ [operatorMsg user_override,
          if isDangerous user_override then securityAlertMsg
          else ackMsg user_override] := by
  unfold handle_user_override
  by_cases h : isDangerous user_override <;> simp [h]

end OpsSwarm
